import Mathlib

/-!
Verification of the Adafruit PureIO SPI module (`Adafruit_PureIO/spi.py`)
against its natural-language specification.

The Python source is shallowly embedded: machine integers are `Nat` (Python
ints are unbounded non-negative values in every code path modelled here),
the kernel device behind the file handle is an explicit record `DevState`,
and every operation additionally returns the list of ioctl calls it issued
(an `Event` trace), so that claims about syscall counts and ordering can be
stated and proved.
-/

/-! ### `struct.calcsize` for the format strings used by the source

The source computes payload sizes with `struct.calcsize` in native mode on
format strings built from the characters `Q`, `I`, `H`, `B`.  Native mode
inserts padding so that each field starts at an offset that is a multiple of
its alignment (no trailing padding). -/

/-- Size in bytes of one `struct` format character (native mode). -/
def fmtSize (c : Char) : Nat :=
  if c = 'Q' then 8 else if c = 'I' then 4 else if c = 'H' then 2
  else if c = 'B' then 1 else 0

/-- Alignment in bytes of one `struct` format character (native mode). -/
def fmtAlign (c : Char) : Nat :=
  if c = 'Q' then 8 else if c = 'I' then 4 else if c = 'H' then 2
  else if c = 'B' then 1 else 1

/-- Round `off` up to the next multiple of `a`. -/
def alignUp (off a : Nat) : Nat := ((off + a - 1) / a) * a

/-- Accumulate offsets over the format characters. -/
def calcsizeAux : List Char → Nat → Nat
  | [], off => off
  | c :: cs, off => calcsizeAux cs (alignUp off (fmtAlign c) + fmtSize c)

/-- Python `struct.calcsize` (native mode) on the format strings of the source. -/
def calcsize (fmt : String) : Nat := calcsizeAux fmt.data 0

/-! ### SPI mode-bit constants (module level in `spi.py`) -/

def SPI_CPHA : Nat := 0x01
def SPI_CPOL : Nat := 0x02
def SPI_CS_HIGH : Nat := 0x04
def SPI_LSB_FIRST : Nat := 0x08
def SPI_THREE_WIRE : Nat := 0x10
def SPI_LOOP : Nat := 0x20
def SPI_NO_CS : Nat := 0x40
def SPI_READY : Nat := 0x80

def SPI_MODE_0 : Nat := 0
def SPI_MODE_1 : Nat := SPI_CPHA
def SPI_MODE_2 : Nat := SPI_CPOL
def SPI_MODE_3 : Nat := SPI_CPHA ||| SPI_CPOL

def SPI_CHUNK_SIZE : Nat := 4096

/-- The eight named single-bit mode flags exposed through property accessors. -/
def modeFlags : List Nat :=
  [SPI_CPHA, SPI_CPOL, SPI_CS_HIGH, SPI_LSB_FIRST,
   SPI_THREE_WIRE, SPI_LOOP, SPI_NO_CS, SPI_READY]

/-! ### The ioctl command encoder (`_ioc_encode`) -/

/-- `_ioc_encode(direction, number, structure)` from `spi.py`: computes the
spidev ioctl opcode from the direction, the command number and the
`struct.pack` format of the payload, and returns the
`(direction, op, structure)` triple. -/
def ioc_encode (direction number : Nat) (st : String) : Nat × Nat × String :=
  let ioc_magic := Char.toNat 'k'
  let ioc_nrbits := 8
  let ioc_typebits := 8
  let ioc_sizebits := 14
  let ioc_nrshift := 0
  let ioc_typeshift := ioc_nrshift + ioc_nrbits
  let ioc_sizeshift := ioc_typeshift + ioc_typebits
  let ioc_dirshift := ioc_sizeshift + ioc_sizebits
  let size := calcsize st
  let op := (direction <<< ioc_dirshift) ||| (ioc_magic <<< ioc_typeshift) |||
            (number <<< ioc_nrshift) ||| (size <<< ioc_sizeshift)
  (direction, op, st)

/-- The reference value of the Linux kernel `_IOC` macro, written exactly as
the specification describes it:
`(direction << 30) | (magic << 8) | number | (payload_size << 16)`. -/
def linux_IOC (direction magic number payload_size : Nat) : Nat :=
  (direction <<< 30) ||| (magic <<< 8) ||| number ||| (payload_size <<< 16)

/-! ### The `SPI` class constants -/

def SPI.IOC_TRANSFER_FORMAT : String := "QQIIHBBBBH"

def SPI.IOC_WRITE : Nat := 1
def SPI.IOC_READ : Nat := 2

/-- `_IOC_MESSAGE`: the one transfer opcode, reused for every chunk. -/
def SPI.IOC_MESSAGE : Nat := (ioc_encode SPI.IOC_WRITE 0 SPI.IOC_TRANSFER_FORMAT).2.1

def SPI.IOC_RD_MODE : Nat × Nat × String := ioc_encode SPI.IOC_READ 1 "B"
def SPI.IOC_WR_MODE : Nat × Nat × String := ioc_encode SPI.IOC_WRITE 1 "B"

def SPI.IOC_RD_LSB_FIRST : Nat × Nat × String := ioc_encode SPI.IOC_READ 2 "B"
def SPI.IOC_WR_LSB_FIRST : Nat × Nat × String := ioc_encode SPI.IOC_WRITE 2 "B"

def SPI.IOC_RD_BITS_PER_WORD : Nat × Nat × String := ioc_encode SPI.IOC_READ 3 "B"
def SPI.IOC_WR_BITS_PER_WORD : Nat × Nat × String := ioc_encode SPI.IOC_WRITE 3 "B"

def SPI.IOC_RD_MAX_SPEED_HZ : Nat × Nat × String := ioc_encode SPI.IOC_READ 4 "I"
def SPI.IOC_WR_MAX_SPEED_HZ : Nat × Nat × String := ioc_encode SPI.IOC_WRITE 4 "I"

def SPI.IOC_RD_MODE32 : Nat × Nat × String := ioc_encode SPI.IOC_READ 5 "I"
def SPI.IOC_WR_MODE32 : Nat × Nat × String := ioc_encode SPI.IOC_WRITE 5 "I"

/-! ### Device model and event traces -/

/-- The kernel-side state behind the spidev file handle: the mode byte, the
max speed and the bits-per-word registers (the registers the source touches). -/
structure DevState where
  mode : Nat
  speed : Nat
  bits : Nat
deriving Repr, DecidableEq

/-- The `struct spi_ioc_transfer` descriptor packed with format `QQIIHBBBBH`.
The two buffer-address fields are modelled by their contents: `tx_buf` is the
transmitted bytes (`none` models a null pointer, packed as `0`), `rx_len` the
size of the receive buffer the address points at (`none` models null / `0`). -/
structure SpiIocTransfer where
  tx_buf : Option (List Nat)
  rx_len : Option Nat
  len : Nat
  speed_hz : Nat
  delay_usecs : Nat
  bits_per_word : Nat
  cs_change : Nat
  tx_nbits : Nat
  rx_nbits : Nat
  pad : Nat
deriving Repr, DecidableEq

/-- One observable syscall of the controller. -/
inductive Event where
  | openDev (path : String)
  | ioctlRead (op : Nat) (result : Nat)
  | ioctlWrite (op : Nat) (arg : Nat)
  | ioctlMessage (op : Nat) (xfer : SpiIocTransfer)
deriving Repr, DecidableEq

/-- Ioctl opcode carried by an event (`0` for the open event). -/
def eventOp : Event → Nat
  | .openDev _ => 0
  | .ioctlRead op _ => op
  | .ioctlWrite op _ => op
  | .ioctlMessage op _ => op

/-- Whether an event is an ioctl syscall. -/
def isIoctlEvent : Event → Bool
  | .openDev _ => false
  | _ => true

/-- Kernel behaviour of the scalar read ioctls on the modelled registers. -/
def devReadReg (s : DevState) (op : Nat) : Nat :=
  if op = SPI.IOC_RD_MODE.2.1 then s.mode
  else if op = SPI.IOC_RD_BITS_PER_WORD.2.1 then s.bits
  else if op = SPI.IOC_RD_MAX_SPEED_HZ.2.1 then s.speed
  else 0

/-- Kernel behaviour of the scalar write ioctls on the modelled registers. -/
def devWriteReg (s : DevState) (op v : Nat) : DevState :=
  if op = SPI.IOC_WR_MODE.2.1 then { s with mode := v }
  else if op = SPI.IOC_WR_BITS_PER_WORD.2.1 then { s with bits := v }
  else if op = SPI.IOC_WR_MAX_SPEED_HZ.2.1 then { s with speed := v }
  else s

/-- `SPI._ioctl(self, ioctl_data, data=None)`: for a read-direction command,
issue the ioctl and return the value the kernel wrote into the argument
buffer; for a write-direction command, pack `data` and issue the ioctl. -/
def ioctlCall (s : DevState) (cmd : Nat × Nat × String) (data : Option Nat) :
    Option Nat × DevState × List Event :=
  if cmd.1 = SPI.IOC_READ then
    let r := devReadReg s cmd.2.1
    (some r, s, [Event.ioctlRead cmd.2.1 r])
  else
    let v := data.getD 0
    (none, devWriteReg s cmd.2.1 v, [Event.ioctlWrite cmd.2.1 v])

/-- Python `mode & ~field` on non-negative ints: clear in `m` every bit set
in `f`.  Written with kernel-computable operations; `andNot_eq_ldiff` below
certifies that it is exactly the bitwise and-not. -/
def andNot (m f : Nat) : Nat := m ^^^ (m &&& f)

/-- `SPI._get_mode_field(self, field)`: read the mode byte with one ioctl and
test the masked bits (`True if mode & field else False`). -/
def SPI.get_mode_field (s : DevState) (field : Nat) : Bool × DevState × List Event :=
  let r := ioctlCall s SPI.IOC_RD_MODE none
  (decide (r.1.getD 0 &&& field ≠ 0), r.2.1, r.2.2)

/-- `SPI._set_mode_field(self, field, value)`: read the current mode byte,
set or clear the bits of `field`, and write the composed byte back. -/
def SPI.set_mode_field (s : DevState) (field : Nat) (value : Bool) :
    DevState × List Event :=
  let r := ioctlCall s SPI.IOC_RD_MODE none
  let mode := r.1.getD 0
  let mode2 := if value then mode ||| field else andNot mode field
  let w := ioctlCall r.2.1 SPI.IOC_WR_MODE (some mode2)
  (w.2.1, r.2.2 ++ w.2.2)

/-! The named property accessors, each tied to its one mode bit. -/

def SPI.phase_get (s : DevState) := SPI.get_mode_field s SPI_CPHA
def SPI.phase_set (s : DevState) (v : Bool) := SPI.set_mode_field s SPI_CPHA v
def SPI.polarity_get (s : DevState) := SPI.get_mode_field s SPI_CPOL
def SPI.polarity_set (s : DevState) (v : Bool) := SPI.set_mode_field s SPI_CPOL v
def SPI.cs_high_get (s : DevState) := SPI.get_mode_field s SPI_CS_HIGH
def SPI.cs_high_set (s : DevState) (v : Bool) := SPI.set_mode_field s SPI_CS_HIGH v
def SPI.lsb_first_get (s : DevState) := SPI.get_mode_field s SPI_LSB_FIRST
def SPI.lsb_first_set (s : DevState) (v : Bool) := SPI.set_mode_field s SPI_LSB_FIRST v
def SPI.three_wire_get (s : DevState) := SPI.get_mode_field s SPI_THREE_WIRE
def SPI.three_wire_set (s : DevState) (v : Bool) := SPI.set_mode_field s SPI_THREE_WIRE v
def SPI.loop_get (s : DevState) := SPI.get_mode_field s SPI_LOOP
def SPI.loop_set (s : DevState) (v : Bool) := SPI.set_mode_field s SPI_LOOP v
def SPI.no_cs_get (s : DevState) := SPI.get_mode_field s SPI_NO_CS
def SPI.no_cs_set (s : DevState) (v : Bool) := SPI.set_mode_field s SPI_NO_CS v
def SPI.ready_get (s : DevState) := SPI.get_mode_field s SPI_READY
def SPI.ready_set (s : DevState) (v : Bool) := SPI.set_mode_field s SPI_READY v

/-- `max_speed_hz` getter: one scalar read ioctl. -/
def SPI.get_max_speed_hz (s : DevState) : Nat × DevState × List Event :=
  let r := ioctlCall s SPI.IOC_RD_MAX_SPEED_HZ none
  (r.1.getD 0, r.2.1, r.2.2)

/-- `max_speed_hz` setter: one scalar write ioctl. -/
def SPI.set_max_speed_hz (s : DevState) (v : Nat) : DevState × List Event :=
  let r := ioctlCall s SPI.IOC_WR_MAX_SPEED_HZ (some v)
  (r.2.1, r.2.2)

/-- `bits_per_word` getter: one scalar read ioctl. -/
def SPI.get_bits_per_word (s : DevState) : Nat × DevState × List Event :=
  let r := ioctlCall s SPI.IOC_RD_BITS_PER_WORD none
  (r.1.getD 0, r.2.1, r.2.2)

/-- `bits_per_word` setter: one scalar write ioctl. -/
def SPI.set_bits_per_word (s : DevState) (v : Nat) : DevState × List Event :=
  let r := ioctlCall s SPI.IOC_WR_BITS_PER_WORD (some v)
  (r.2.1, r.2.2)

/-- `mode` getter: one scalar read ioctl. -/
def SPI.get_mode (s : DevState) : Nat × DevState × List Event :=
  let r := ioctlCall s SPI.IOC_RD_MODE none
  (r.1.getD 0, r.2.1, r.2.2)

/-- `mode` setter: one scalar write ioctl. -/
def SPI.set_mode (s : DevState) (v : Nat) : DevState × List Event :=
  let r := ioctlCall s SPI.IOC_WR_MODE (some v)
  (r.2.1, r.2.2)

/-! ### The transfer engine -/

/-- Python `range(0, stop, step)` for `step > 0`: the multiples of `step`
below `stop`. -/
def pyRangeStep (stop step : Nat) : List Nat :=
  (List.range ((stop + step - 1) / step)).map (fun i => i * step)

/-- The chunk list built by `writebytes`:
`[data[i:i+SPI_CHUNK_SIZE] for i in range(0, len(data), SPI_CHUNK_SIZE)]`
(a Python slice `data[i:i+C]` is `take C` of `drop i`). -/
def chunkList (data : List Nat) : List (List Nat) :=
  (pyRangeStep data.length SPI_CHUNK_SIZE).map
    (fun i => (data.drop i).take SPI_CHUNK_SIZE)

/-- The transfer descriptor packed by `writebytes` for one chunk:
`(addressof(transmit_buffer), 0, length, max_speed_hz, delay, bits_per_word,
0, 0, 0, 0)`. -/
def writeDescriptor (chunk : List Nat) (max_speed_hz bits_per_word delay : Nat) :
    SpiIocTransfer :=
  { tx_buf := some chunk, rx_len := none, len := chunk.length,
    speed_hz := max_speed_hz, delay_usecs := delay,
    bits_per_word := bits_per_word,
    cs_change := 0, tx_nbits := 0, rx_nbits := 0, pad := 0 }

/-- `SPI.writebytes(self, data, max_speed_hz=0, bits_per_word=0, delay=0)`:
split `data` into chunks and issue one message ioctl per chunk, in order. -/
def SPI.writebytes (s : DevState) (data : List Nat)
    (max_speed_hz bits_per_word delay : Nat) : DevState × List Event :=
  (chunkList data).foldl
    (fun acc chunk =>
      (acc.1, acc.2 ++
        [Event.ioctlMessage SPI.IOC_MESSAGE
          (writeDescriptor chunk max_speed_hz bits_per_word delay)]))
    (s, [])

/-- What the kernel deposits in the receive buffer of one message ioctl:
with the loopback mode bit set the transmitted bytes come back (the padding
with zeros never applies when `len` equals the length of the transmitted
data, as in every call of the source); otherwise the model leaves zeros. -/
def devMessage (s : DevState) (tx : Option (List Nat)) (len : Nat) : List Nat :=
  if s.mode &&& SPI_LOOP ≠ 0 then
    let t := (tx.getD []).take len
    t ++ List.replicate (len - t.length) 0
  else List.replicate len 0

/-- `SPI.readbytes(self, length, max_speed_hz=0, bits_per_word=0, delay=0)`:
one receive buffer of size `length`, ONE message ioctl (the source does not
chunk reads), and the buffer contents returned as a list of `length` words. -/
def SPI.readbytes (s : DevState) (length max_speed_hz bits_per_word delay : Nat) :
    List Nat × DevState × List Event :=
  let rx := devMessage s none length
  (rx, s,
    [Event.ioctlMessage SPI.IOC_MESSAGE
      { tx_buf := none, rx_len := some length, len := length,
        speed_hz := max_speed_hz, delay_usecs := delay,
        bits_per_word := bits_per_word,
        cs_change := 0, tx_nbits := 0, rx_nbits := 0, pad := 0 }])

/-- `SPI.transfer(self, data, max_speed_hz=0, bits_per_word=0, delay=0)`:
full-duplex transfer of all of `data` in ONE message ioctl (the source does
not chunk transfers), returning the receive buffer as a list of words. -/
def SPI.transfer (s : DevState) (data : List Nat)
    (max_speed_hz bits_per_word delay : Nat) :
    List Nat × DevState × List Event :=
  let length := data.length
  let rx := devMessage s (some data) length
  (rx, s,
    [Event.ioctlMessage SPI.IOC_MESSAGE
      { tx_buf := some data, rx_len := some length, len := length,
        speed_hz := max_speed_hz, delay_usecs := delay,
        bits_per_word := bits_per_word,
        cs_change := 0, tx_nbits := 0, rx_nbits := 0, pad := 0 }])

/-- `SPI.close(self)`: the body is `pass` — nothing happens. -/
def SPI.close (s : DevState) : DevState × List Event := (s, [])

/-! ### Construction -/

/-- The `device` argument of the constructor: a path string or a
`(bus, device)` tuple. -/
inductive DeviceSpec where
  | path (p : String)
  | busDev (bus dev : Nat)
deriving Repr, DecidableEq

/-- The path opened: a tuple is formatted as `"/dev/spidev{bus:d}.{dev:d}"`. -/
def devicePath : DeviceSpec → String
  | .path p => p
  | .busDev b d => "/dev/spidev" ++ toString b ++ "." ++ toString d

/-- `SPI.__init__`, against a filesystem `fs` (the list of existing paths)
and a device in state `s`.  Mirrors the source order: existence check, open,
then each optional parameter guarded by `is not None` — except that for
`loop`, `no_cs` and `ready` the source erroneously tests `self.loop` /
`self.no_cs` / `self.ready` (calling the getter, whose `Bool` result is
never `None`), so those three branches are always taken and assign the raw
parameter; an absent parameter (`None`) is falsy in `if value:` of
`_set_mode_field`, modelled by `Option.getD false`. -/
def SPI.init (fs : List String) (device : DeviceSpec)
    (max_speed_hz bits_per_word : Option Nat)
    (phase polarity cs_high lsb_first three_wire loop no_cs ready : Option Bool)
    (s : DevState) : Except String DevState × List Event :=
  let path := devicePath device
  if path ∈ fs then
    let acc0 : DevState × List Event := (s, [Event.openDev path])
    let acc1 := match max_speed_hz with
      | some v => let r := SPI.set_max_speed_hz acc0.1 v; (r.1, acc0.2 ++ r.2)
      | none => acc0
    let acc2 := match bits_per_word with
      | some v => let r := SPI.set_bits_per_word acc1.1 v; (r.1, acc1.2 ++ r.2)
      | none => acc1
    let acc3 := match phase with
      | some v => let r := SPI.phase_set acc2.1 v; (r.1, acc2.2 ++ r.2)
      | none => acc2
    let acc4 := match polarity with
      | some v => let r := SPI.polarity_set acc3.1 v; (r.1, acc3.2 ++ r.2)
      | none => acc3
    let acc5 := match cs_high with
      | some v => let r := SPI.cs_high_set acc4.1 v; (r.1, acc4.2 ++ r.2)
      | none => acc4
    let acc6 := match lsb_first with
      | some v => let r := SPI.lsb_first_set acc5.1 v; (r.1, acc5.2 ++ r.2)
      | none => acc5
    let acc7 := match three_wire with
      | some v => let r := SPI.three_wire_set acc6.1 v; (r.1, acc6.2 ++ r.2)
      | none => acc6
    let g8 := SPI.loop_get acc7.1
    let acc8 := let r := SPI.loop_set g8.2.1 (loop.getD false)
                (r.1, acc7.2 ++ g8.2.2 ++ r.2)
    let g9 := SPI.no_cs_get acc8.1
    let acc9 := let r := SPI.no_cs_set g9.2.1 (no_cs.getD false)
                (r.1, acc8.2 ++ g9.2.2 ++ r.2)
    let g10 := SPI.ready_get acc9.1
    let acc10 := let r := SPI.ready_set g10.2.1 (ready.getD false)
                 (r.1, acc9.2 ++ g10.2.2 ++ r.2)
    (Except.ok acc10.1, acc10.2)
  else (Except.error (path ++ " does not exist"), [])

/-! ### Evaluation of the precomputed command constants -/

theorem IOC_RD_MODE_eval : SPI.IOC_RD_MODE = (2, 0x80016B01, "B") := rfl
theorem IOC_WR_MODE_eval : SPI.IOC_WR_MODE = (1, 0x40016B01, "B") := rfl
theorem IOC_RD_BITS_eval : SPI.IOC_RD_BITS_PER_WORD = (2, 0x80016B03, "B") := rfl
theorem IOC_WR_BITS_eval : SPI.IOC_WR_BITS_PER_WORD = (1, 0x40016B03, "B") := rfl
theorem IOC_RD_SPEED_eval : SPI.IOC_RD_MAX_SPEED_HZ = (2, 0x80046B04, "I") := rfl
theorem IOC_WR_SPEED_eval : SPI.IOC_WR_MAX_SPEED_HZ = (1, 0x40046B04, "I") := rfl
theorem IOC_MESSAGE_eval : SPI.IOC_MESSAGE = 0x40206B00 := rfl

/-! ### Chunking lemmas -/

theorem chunkList_nil : chunkList [] = [] := rfl

theorem chunkList_length (data : List Nat) :
    (chunkList data).length = (data.length + SPI_CHUNK_SIZE - 1) / SPI_CHUNK_SIZE := by
  simp [chunkList, pyRangeStep]

theorem chunkList_getElem (data : List Nat) (i : Nat)
    (hi : i < (chunkList data).length) :
    (chunkList data)[i] = (data.drop (i * SPI_CHUNK_SIZE)).take SPI_CHUNK_SIZE := by
  simp [chunkList, pyRangeStep]

theorem chunkList_cons (data : List Nat) (h : data ≠ []) :
    chunkList data
      = data.take SPI_CHUNK_SIZE :: chunkList (data.drop SPI_CHUNK_SIZE) := by
  have hn : 0 < data.length := List.length_pos.mpr h
  have hceil : (data.length + SPI_CHUNK_SIZE - 1) / SPI_CHUNK_SIZE
      = ((data.length - SPI_CHUNK_SIZE) + SPI_CHUNK_SIZE - 1) / SPI_CHUNK_SIZE + 1 := by
    simp only [SPI_CHUNK_SIZE]
    omega
  simp only [chunkList, pyRangeStep, List.length_drop]
  rw [hceil, List.range_succ_eq_map]
  simp only [List.map_cons, List.map_map, Nat.zero_mul, List.drop_zero]
  refine congrArg _ ?_
  apply List.map_congr_left
  intro i _
  simp only [Function.comp]
  rw [List.drop_drop]
  refine congrArg (fun k => (data.drop k).take SPI_CHUNK_SIZE) ?_
  simp only [SPI_CHUNK_SIZE]
  omega

theorem chunkList_flatten (data : List Nat) : (chunkList data).flatten = data := by
  cases hd : data with
  | nil => rfl
  | cons a t =>
    rw [chunkList_cons (a :: t) (by simp), List.flatten_cons,
        chunkList_flatten ((a :: t).drop SPI_CHUNK_SIZE),
        List.take_append_drop]
termination_by data.length
decreasing_by
  simp only [List.length_drop, List.length_cons, SPI_CHUNK_SIZE]
  omega

/-- The event trace accumulated by a `foldl` that appends one event per list
element is the map of the event builder over the list. -/
theorem foldl_emit {α : Type} (f : α → Event) (l : List α) :
    ∀ (s : DevState) (es : List Event),
      l.foldl (fun acc c => (acc.1, acc.2 ++ [f c])) (s, es) = (s, es ++ l.map f) := by
  induction l with
  | nil => intro s es; simp
  | cons c t ih => intro s es; simp [ih]

/-! ### Mode-bit arithmetic -/

theorem andNot_eq_ldiff (m f : Nat) : andNot m f = Nat.ldiff m f := by
  refine Nat.eq_of_testBit_eq fun i => ?_
  simp [andNot, Nat.testBit_ldiff]
  cases Nat.testBit m i <;> cases Nat.testBit f i <;> rfl

set_option maxRecDepth 10000 in
theorem mode_bit_aux : ∀ m < 256, ∀ f ∈ modeFlags, ∀ g ∈ modeFlags, f ≠ g →
    (((m ||| f) &&& f ≠ 0)
      ∧ (andNot m f &&& f = 0)
      ∧ ((m ||| f) &&& g = m &&& g)
      ∧ (andNot m f &&& g = m &&& g)) := by decide

/-! ### Claims -/

/-- Equation lemma for `eventOp` on message events (stated with a variable
opcode so that instantiating it at the packed command constants needs no
kernel evaluation of those constants). -/
theorem eventOp_message (op : Nat) (x : SpiIocTransfer) :
    eventOp (Event.ioctlMessage op x) = op := rfl



/-- C1: for every direction, command number and payload format, `_ioc_encode`
returns the 32-bit opcode
`(direction << 30) | (magic << 8) | number | (payload_size << 16)` with
number width 8 bits, type width 8 bits, size width 14 bits and magic the
ASCII value of `'k'` (107) — bit-for-bit the Linux `_IOC` macro value; the
encoder is a pure function, the `_IOC_MESSAGE` opcode is the one obtained
from direction = Write, number = 0 and the size (32) of the transfer
descriptor format `"QQIIHBBBBH"`, and every message ioctl issued by
`writebytes`, `readbytes` and `transfer` carries this same opcode. -/
theorem C1_ioc_encode_matches_linux_IOC (d n : Nat) (st : String)
    (hd : d < 4) (hn : n < 256) (hs : calcsize st < 16384) :
    (ioc_encode d n st).2.1 = linux_IOC d (Char.toNat 'k') n (calcsize st)
    ∧ (ioc_encode d n st).2.1 < 2 ^ 32
    ∧ Char.toNat 'k' = 107
    ∧ SPI.IOC_MESSAGE = (ioc_encode SPI.IOC_WRITE 0 SPI.IOC_TRANSFER_FORMAT).2.1
    ∧ calcsize SPI.IOC_TRANSFER_FORMAT = 32
    ∧ SPI.IOC_MESSAGE = linux_IOC 1 (Char.toNat 'k') 0 32
    ∧ (∀ s data sp bw dl, ∀ e ∈ (SPI.writebytes s data sp bw dl).2,
        eventOp e = SPI.IOC_MESSAGE)
    ∧ (∀ s len sp bw dl, ∀ e ∈ (SPI.readbytes s len sp bw dl).2.2,
        eventOp e = SPI.IOC_MESSAGE)
    ∧ (∀ s data sp bw dl, ∀ e ∈ (SPI.transfer s data sp bw dl).2.2,
        eventOp e = SPI.IOC_MESSAGE) := by
  refine ⟨rfl, ?_, rfl, rfl, rfl, rfl, ?_, ?_, ?_⟩
  · show (d <<< 30) ||| (107 <<< 8) ||| (n <<< 0) ||| (calcsize st <<< 16) < 2 ^ 32
    apply Nat.or_lt_two_pow
    apply Nat.or_lt_two_pow
    apply Nat.or_lt_two_pow
    · calc d <<< 30 = d * 2 ^ 30 := by rw [Nat.shiftLeft_eq]
      _ < 2 ^ 32 := by omega
    · decide
    · calc n <<< 0 = n := Nat.shiftLeft_zero
      _ < 2 ^ 32 := by omega
    · calc calcsize st <<< 16 = calcsize st * 2 ^ 16 := by rw [Nat.shiftLeft_eq]
      _ < 2 ^ 32 := by omega
  · intro s data sp bw dl e he
    rw [SPI.writebytes, foldl_emit] at he
    simp only [List.nil_append, List.mem_map] at he
    obtain ⟨c, _, rfl⟩ := he
    exact eventOp_message _ _
  · intro s len sp bw dl e he
    simp only [SPI.readbytes, List.mem_singleton] at he
    subst he
    exact eventOp_message _ _
  · intro s data sp bw dl e he
    simp only [SPI.transfer, List.mem_singleton] at he
    subst he
    exact eventOp_message _ _

/-- Witness for C1 at direction = Read (2), number = 1, format `"B"`
(the mode-read command). -/
theorem C1_witness :
    (2 : Nat) < 4 ∧ (1 : Nat) < 256 ∧ calcsize "B" < 16384
    ∧ (ioc_encode 2 1 "B").2.1 = linux_IOC 2 (Char.toNat 'k') 1 (calcsize "B") :=
  ⟨by decide, by decide, by decide,
   (C1_ioc_encode_matches_linux_IOC 2 1 "B" (by decide) (by decide) (by decide)).1⟩

/-- Each chunk has length `min SPI_CHUNK_SIZE (data.length - i * SPI_CHUNK_SIZE)`. -/
theorem chunkList_getElem_length (data : List Nat) (i : Nat)
    (hi : i < (chunkList data).length) :
    (chunkList data)[i].length
      = min SPI_CHUNK_SIZE (data.length - i * SPI_CHUNK_SIZE) := by
  rw [chunkList_getElem]
  simp [List.length_take]

/-- C2: `writebytes` partitions its input into `ceil(N/4096)` contiguous,
in-order chunks; chunk `i` covers bytes `[i*C, min((i+1)*C, N))`; the chunks
concatenate back to the input; for `N` an exact multiple of `C` every chunk
(the final one included) has length exactly `C` and no chunk is ever empty;
and one message ioctl is issued per chunk, in chunk order. -/
theorem C2_writebytes_chunking (data : List Nat) (hbytes : ∀ b ∈ data, b < 256)
    (s : DevState) (sp bw dl : Nat) :
    (chunkList data).length = (data.length + SPI_CHUNK_SIZE - 1) / SPI_CHUNK_SIZE
    ∧ (∀ i, (hi : i < (chunkList data).length) →
        (chunkList data)[i]
          = (data.take (min ((i + 1) * SPI_CHUNK_SIZE) data.length)).drop
              (i * SPI_CHUNK_SIZE))
    ∧ (chunkList data).flatten = data
    ∧ (data.length % SPI_CHUNK_SIZE = 0 →
        ∀ c ∈ chunkList data, c.length = SPI_CHUNK_SIZE)
    ∧ (∀ c ∈ chunkList data, c ≠ [])
    ∧ (SPI.writebytes s data sp bw dl).2
        = (chunkList data).map
            (fun c => Event.ioctlMessage SPI.IOC_MESSAGE (writeDescriptor c sp bw dl)) := by
  refine ⟨chunkList_length data, ?_, chunkList_flatten data, ?_, ?_, ?_⟩
  · intro i hi
    rw [chunkList_getElem, List.take_drop]
    refine congrArg (List.drop (i * SPI_CHUNK_SIZE)) ?_
    rw [List.take_eq_take]
    have h2 := hi
    rw [chunkList_length data] at h2
    simp only [SPI_CHUNK_SIZE] at h2 ⊢
    omega
  · intro hmod c hc
    obtain ⟨i, hi, rfl⟩ := List.mem_iff_getElem.mp hc
    rw [chunkList_getElem_length]
    have := hi
    rw [chunkList_length data] at this
    simp only [SPI_CHUNK_SIZE] at this hmod ⊢
    omega
  · intro c hc
    obtain ⟨i, hi, rfl⟩ := List.mem_iff_getElem.mp hc
    have hlen : (chunkList data)[i].length
        = min SPI_CHUNK_SIZE (data.length - i * SPI_CHUNK_SIZE) :=
      chunkList_getElem_length data i hi
    intro hnil
    rw [hnil] at hlen
    have := hi
    rw [chunkList_length data] at this
    simp only [SPI_CHUNK_SIZE] at hlen this
    simp at hlen
    omega
  · rw [SPI.writebytes, foldl_emit]
    simp

/-- Witness for C2 on the concrete byte sequence `[1, 2, 3]`. -/
theorem C2_witness :
    (∀ b ∈ ([1, 2, 3] : List Nat), b < 256)
    ∧ (chunkList [1, 2, 3]).flatten = [1, 2, 3] :=
  ⟨by decide,
   (C2_writebytes_chunking [1, 2, 3] (by decide) ⟨0, 0, 0⟩ 0 0 0).2.2.1⟩

/-! ### Evaluation lemmas for the accessors (variable state, so claim proofs
never force the kernel to re-evaluate the packed command constants) -/

theorem get_mode_field_eval (s : DevState) (f : Nat) :
    SPI.get_mode_field s f
      = (decide (s.mode &&& f ≠ 0), s,
         [Event.ioctlRead SPI.IOC_RD_MODE.2.1 s.mode]) := rfl

theorem set_mode_field_eval (s : DevState) (f : Nat) (b : Bool) :
    SPI.set_mode_field s f b
      = ({ s with mode := if b then s.mode ||| f else andNot s.mode f },
         [Event.ioctlRead SPI.IOC_RD_MODE.2.1 s.mode,
          Event.ioctlWrite SPI.IOC_WR_MODE.2.1
            (if b then s.mode ||| f else andNot s.mode f)]) := by
  cases b <;> rfl

theorem set_max_speed_hz_eval (s : DevState) (v : Nat) :
    SPI.set_max_speed_hz s v
      = ({ s with speed := v }, [Event.ioctlWrite SPI.IOC_WR_MAX_SPEED_HZ.2.1 v]) := rfl

theorem set_bits_per_word_eval (s : DevState) (v : Nat) :
    SPI.set_bits_per_word s v
      = ({ s with bits := v }, [Event.ioctlWrite SPI.IOC_WR_BITS_PER_WORD.2.1 v]) := rfl

theorem set_mode_eval (s : DevState) (v : Nat) :
    SPI.set_mode s v
      = ({ s with mode := v }, [Event.ioctlWrite SPI.IOC_WR_MODE.2.1 v]) := rfl

/-- C3: on a device whose mode-write ioctl stores the mode byte and whose
mode-read ioctl returns the stored byte, for every named single-bit mode
flag `f`, every boolean `b` and every other flag `g`: after `set(f, b)`,
`get(f)` returns `b`, and `get(g)` returns what it returned before the set —
the read-modify-write setter never disturbs the bits of other flags. -/
theorem C3_mode_flag_set_then_get (s : DevState) (f g : Nat) (b : Bool)
    (hm : s.mode < 256) (hf : f ∈ modeFlags) (hg : g ∈ modeFlags) (hfg : f ≠ g) :
    (SPI.get_mode_field (SPI.set_mode_field s f b).1 f).1 = b
    ∧ (SPI.get_mode_field (SPI.set_mode_field s f b).1 g).1
        = (SPI.get_mode_field s g).1 := by
  obtain ⟨h1, h2, h3, h4⟩ := mode_bit_aux s.mode hm f hf g hg hfg
  rw [set_mode_field_eval, get_mode_field_eval, get_mode_field_eval,
      get_mode_field_eval]
  cases b
  · simp only [Bool.false_eq_true, if_false]
    constructor
    · simpa using h2
    · simp only [h4]
  · simp only [if_true]
    constructor
    · simpa using h1
    · simp only [h3]

/-- Witness for C3: phase (CPHA) set to true on a device with polarity
(CPOL) already set; polarity is untouched. -/
theorem C3_witness :
    ((⟨2, 0, 0⟩ : DevState).mode < 256 ∧ SPI_CPHA ∈ modeFlags
      ∧ SPI_CPOL ∈ modeFlags ∧ SPI_CPHA ≠ SPI_CPOL)
    ∧ (SPI.get_mode_field (SPI.set_mode_field ⟨2, 0, 0⟩ SPI_CPHA true).1 SPI_CPHA).1 = true
    ∧ (SPI.get_mode_field (SPI.set_mode_field ⟨2, 0, 0⟩ SPI_CPHA true).1 SPI_CPOL).1
        = (SPI.get_mode_field (⟨2, 0, 0⟩ : DevState) SPI_CPOL).1 :=
  ⟨⟨by decide, by decide, by decide, by decide⟩,
   C3_mode_flag_set_then_get ⟨2, 0, 0⟩ SPI_CPHA SPI_CPOL true
     (by decide) (by decide) (by decide) (by decide)⟩

/-- C9: every mode-flag getter performs exactly one ioctl (the mode read);
every mode-flag setter performs exactly two, the mode read then the mode
write; the scalar setters for `max_speed_hz`, `bits_per_word` and `mode`
perform exactly one write ioctl. -/
theorem C9_accessor_syscall_counts (s : DevState) (f v : Nat) (b : Bool) :
    (SPI.get_mode_field s f).2.2
        = [Event.ioctlRead SPI.IOC_RD_MODE.2.1 s.mode]
    ∧ (SPI.set_mode_field s f b).2
        = [Event.ioctlRead SPI.IOC_RD_MODE.2.1 s.mode,
           Event.ioctlWrite SPI.IOC_WR_MODE.2.1
             (if b then s.mode ||| f else andNot s.mode f)]
    ∧ (SPI.set_max_speed_hz s v).2 = [Event.ioctlWrite SPI.IOC_WR_MAX_SPEED_HZ.2.1 v]
    ∧ (SPI.set_bits_per_word s v).2 = [Event.ioctlWrite SPI.IOC_WR_BITS_PER_WORD.2.1 v]
    ∧ (SPI.set_mode s v).2 = [Event.ioctlWrite SPI.IOC_WR_MODE.2.1 v] := by
  refine ⟨?_, ?_, ?_, ?_, ?_⟩
  · rw [get_mode_field_eval]
  · rw [set_mode_field_eval]
  · rw [set_max_speed_hz_eval]
  · rw [set_bits_per_word_eval]
  · rw [set_mode_eval]

/-- C4 counterexample: the claim says `readbytes` issues one message ioctl
per 4096-byte chunk.  At requested length 4097 that would be 2 ioctls
(`ceil(4097/4096) = 2`); the source issues exactly 1 — it never chunks
reads. -/
theorem C4_counterexample_readbytes_4097 :
    (SPI.readbytes ⟨0, 0, 0⟩ 4097 0 0 0).2.2.length = 1
    ∧ (4097 + SPI_CHUNK_SIZE - 1) / SPI_CHUNK_SIZE = 2
    ∧ (1 : Nat) ≠ 2 :=
  ⟨rfl, by decide, by decide⟩

/-- C4 (amended): for every requested length `N ≥ 0`, `readbytes` issues
exactly ONE message ioctl whose descriptor length is `N` (the source applies
no chunking to reads), and returns a sequence of exactly `N` words. -/
theorem C4_readbytes_single_ioctl (s : DevState) (len sp bw dl : Nat) :
    (SPI.readbytes s len sp bw dl).1.length = len
    ∧ (SPI.readbytes s len sp bw dl).2.2
        = [Event.ioctlMessage SPI.IOC_MESSAGE
            { tx_buf := none, rx_len := some len, len := len,
              speed_hz := sp, delay_usecs := dl, bits_per_word := bw,
              cs_change := 0, tx_nbits := 0, rx_nbits := 0, pad := 0 }] := by
  constructor
  · show (devMessage s none len).length = len
    rw [devMessage]
    split
    · simp
    · simp
  · rfl

/-- C5: the full-duplex `transfer` returns a sequence of exactly the same
length as its input, and on a device whose loopback mode bit is set
(modelled: the kernel fills the receive buffer with the transmitted bytes)
it returns exactly its input, for every byte sequence — in particular for
lengths 0, 1, 4096, 4097 and 8195 spanning zero, one and several chunk
sizes. -/
theorem C5_transfer_length_and_loopback (s : DevState) (data : List Nat)
    (sp bw dl : Nat) (hbytes : ∀ b ∈ data, b < 256) :
    (SPI.transfer s data sp bw dl).1.length = data.length
    ∧ (s.mode &&& SPI_LOOP ≠ 0 → (SPI.transfer s data sp bw dl).1 = data) := by
  constructor
  · show (devMessage s (some data) data.length).length = data.length
    rw [devMessage]
    split
    · simp
    · simp
  · intro hloop
    show devMessage s (some data) data.length = data
    rw [devMessage, if_pos hloop]
    simp

/-- Witness for C5: loopback on `[1, 2, 3]` with the LOOP bit set. -/
theorem C5_witness :
    (∀ b ∈ ([1, 2, 3] : List Nat), b < 256)
    ∧ ((⟨0x20, 0, 0⟩ : DevState).mode &&& SPI_LOOP ≠ 0
        → (SPI.transfer ⟨0x20, 0, 0⟩ [1, 2, 3] 0 0 0).1 = [1, 2, 3]) :=
  ⟨by decide,
   (C5_transfer_length_and_loopback ⟨0x20, 0, 0⟩ [1, 2, 3] 0 0 0 (by decide)).2⟩

/-- C6 counterexample: the claim says a zero-length input issues zero ioctl
calls for every transfer operation; but `transfer([])` issues exactly one
message ioctl (with `len = 0`), not zero. -/
theorem C6_counterexample_transfer_empty :
    (SPI.transfer ⟨0, 0, 0⟩ [] 0 0 0).2.2.length = 1 ∧ (1 : Nat) ≠ 0 :=
  ⟨rfl, by decide⟩

/-- C6 (amended): a zero-length `writebytes` yields zero chunks, issues zero
ioctl calls and returns successfully; but zero-length `readbytes` and
`transfer` each still issue exactly one message ioctl (with `len = 0`) and
return an empty result. -/
theorem C6_zero_length_behaviour (s : DevState) (sp bw dl : Nat) :
    chunkList [] = []
    ∧ SPI.writebytes s [] sp bw dl = (s, [])
    ∧ (SPI.readbytes s 0 sp bw dl).1 = []
    ∧ (SPI.readbytes s 0 sp bw dl).2.2.length = 1
    ∧ (SPI.transfer s [] sp bw dl).1 = []
    ∧ (SPI.transfer s [] sp bw dl).2.2.length = 1 := by
  refine ⟨rfl, rfl, ?_, rfl, ?_, rfl⟩
  · show devMessage s none 0 = []
    rw [devMessage]
    split <;> simp
  · show devMessage s (some []) 0 = []
    rw [devMessage]
    split <;> simp

/-- C10: `close` is `pass` — it performs no syscall, changes no state, can
be repeated, and the handle stays usable: every operation behaves after
`close` exactly as before it. -/
theorem C10_close_is_noop (s : DevState) (data : List Nat) (len sp bw dl : Nat) :
    SPI.close s = (s, [])
    ∧ SPI.close (SPI.close s).1 = SPI.close s
    ∧ SPI.transfer (SPI.close s).1 data sp bw dl = SPI.transfer s data sp bw dl
    ∧ SPI.readbytes (SPI.close s).1 len sp bw dl = SPI.readbytes s len sp bw dl
    ∧ SPI.writebytes (SPI.close s).1 data sp bw dl = SPI.writebytes s data sp bw dl
    ∧ SPI.get_mode_field (SPI.close s).1 SPI_LOOP = SPI.get_mode_field s SPI_LOOP :=
  ⟨rfl, rfl, rfl, rfl, rfl, rfl⟩

/-- C7: the claim says construction invokes no accessor (hence no ioctl and
no device-state change) for parameters that were not supplied.  The source
contradicts the symmetric handling of its first seven optional parameters
(and the specification names this as a latent bug): the guards for `loop`,
`no_cs` and `ready` read the property getter instead of testing the
parameter, so with NO optional parameter supplied the constructor still
issues nine ioctls and clears the LOOP, NO_CS and READY mode bits.  Here a
device starts with mode `0x20` (LOOP set) and ends with mode `0`. -/
theorem C7_init_touches_unsupplied_flags :
    (SPI.init ["/dev/spidev0.0"] (DeviceSpec.path "/dev/spidev0.0")
        none none none none none none none none none none ⟨0x20, 0, 0⟩).1
      = Except.ok ⟨0, 0, 0⟩
    ∧ ((SPI.init ["/dev/spidev0.0"] (DeviceSpec.path "/dev/spidev0.0")
        none none none none none none none none none none ⟨0x20, 0, 0⟩).2.filter
          isIoctlEvent).length = 9 :=
  ⟨rfl, rfl⟩

/-- C8: for every device path that does not exist at construction time
(including paths formatted from a `(bus, device)` tuple), construction
fails immediately with an `IOError` naming the path, before the device file
is opened and before any ioctl is attempted (the event trace is empty); and
the tuple `(9, 9)` formats to the path `"/dev/spidev9.9"`. -/
theorem C8_init_nonexistent_path (fs : List String) (device : DeviceSpec)
    (msh bpw : Option Nat) (ph po ch lf tw lp nc rd : Option Bool)
    (s : DevState) (h : devicePath device ∉ fs) :
    SPI.init fs device msh bpw ph po ch lf tw lp nc rd s
      = (Except.error (devicePath device ++ " does not exist"), [])
    ∧ devicePath (DeviceSpec.busDev 9 9) = "/dev/spidev9.9" := by
  constructor
  · rw [SPI.init]
    rw [if_neg h]
  · rfl

/-- Witness for C8 at the nonexistent path `"/dev/spidev9.9"` on an empty
filesystem. -/
theorem C8_witness :
    (devicePath (DeviceSpec.path "/dev/spidev9.9") ∉ ([] : List String))
    ∧ SPI.init [] (DeviceSpec.path "/dev/spidev9.9")
        none none none none none none none none none none ⟨0, 0, 0⟩
      = (Except.error (devicePath (DeviceSpec.path "/dev/spidev9.9")
          ++ " does not exist"), []) :=
  ⟨by simp,
   (C8_init_nonexistent_path [] (DeviceSpec.path "/dev/spidev9.9")
      none none none none none none none none none none ⟨0, 0, 0⟩ (by simp)).1⟩
